import Mathlib

/-!
# Verification of the 24CC client-side scripts

Shallow embedding of the browser scripts of the 24Craft Cinema site:

* `script.js` — navigation highlighting (`basename`, `toLinkBasename`,
  `setActiveNav`) and the demo early-access form submit handler;
* `innovation.js` — the animation/effects controller (stat counters,
  particle constellation update, filmstrip auto-scroll, cinematic loader,
  per-effect feature guards);
* the performance-optimized variant of `innovation.js` (its stat counter,
  loader and filmstrip code are embedded separately, suffixed `Opt`).

Numbers that the scripts manipulate are embedded as `ℚ` (all constants in
the relevant code — `0.5`, `0.998`, `1600`, … — are exact in binary
floating point and the claims never leave the range where `ℚ` and IEEE
doubles agree on the operations used).  DOM side effects are embedded as
explicit state records; a thrown `TypeError` (null dereference) is
embedded as `Except.error`.
-/

/-- JavaScript `Math.round`: round half towards positive infinity. -/
def jsRound (q : ℚ) : ℤ := ⌊q + 1/2⌋

/-! ## Animated stat counters (`innovation.js`, section 4)

`animateCount` reads `target = parseInt(el.dataset.count)` and
`suffix`, records `start = performance.now()`, and on every animation
frame with timestamp `now` computes `elapsed = now - start`,
`progress = min(elapsed / 1600, 1)`, `eased = 1 - (1 - progress)^3`,
writes `Math.round(eased * target) + suffix` to the element, and
requests another frame iff `progress < 1` (otherwise it adds the
`counted` class).  We embed the tick on the elapsed time. -/

/-- `progress = Math.min(elapsed / duration, 1)` with `duration = 1600`. -/
def progressAt (elapsed : ℚ) : ℚ := min (elapsed / 1600) 1

/-- `eased = 1 - Math.pow(1 - progress, 3)` (ease-out cubic). -/
def easedAt (elapsed : ℚ) : ℚ := 1 - (1 - progressAt elapsed) ^ 3

/-- The number displayed by `animateCount`'s tick at a given elapsed time:
`Math.round(eased * target)`. -/
def animateCountValue (target : ℕ) (elapsed : ℚ) : ℤ :=
  jsRound (easedAt elapsed * target)

/-- Whether the tick requests another animation frame: `progress < 1`. -/
def animateCountSchedulesNext (elapsed : ℚ) : Bool :=
  decide (progressAt elapsed < 1)

/-- One tick of `animateCount` in `innovation.js`: the text written to the
element and whether another frame is requested.  Mirrors

```
const progress = Math.min(elapsed / duration, 1);
const eased = 1 - Math.pow(1 - progress, 3);
const current = Math.round(eased * target);
el.textContent = current + suffix;
if (progress < 1) { requestAnimationFrame(tick); } else { el.classList.add('counted'); }
``` -/
def tickOrig (target : ℕ) (suffix : String) (elapsed : ℚ) : String × Bool :=
  let progress := min (elapsed / 1600) 1
  let eased := 1 - (1 - progress) ^ 3
  let current := jsRound (eased * target)
  (toString current ++ suffix, decide (progress < 1))

/-- One tick of `animateCount` in the performance-optimized script:

```
const progress = Math.min(elapsed / duration, 1);
const eased = 1 - Math.pow(1 - progress, 3);
el.textContent = Math.round(eased * target) + suffix;
if (progress < 1) requestAnimationFrame(tick);
else el.classList.add('counted');
``` -/
def tickOpt (target : ℕ) (suffix : String) (elapsed : ℚ) : String × Bool :=
  let progress := min (elapsed / 1600) 1
  let eased := 1 - (1 - progress) ^ 3
  (toString (jsRound (eased * target)) ++ suffix, decide (progress < 1))

/-- Run the `innovation.js` counter over a supply of elapsed-time stamps:
the list of texts displayed, and whether the `counted` class was added.
Each tick consumes one stamp; the loop stops (adding `counted`) after the
first tick whose progress reached 1. -/
def runTicksOrig (target : ℕ) (suffix : String) : List ℚ → List String × Bool
  | [] => ([], false)
  | e :: es =>
    let t := tickOrig target suffix e
    if t.2 then
      let r := runTicksOrig target suffix es
      (t.1 :: r.1, r.2)
    else
      ([t.1], true)

/-- Run the optimized counter over a supply of elapsed-time stamps. -/
def runTicksOpt (target : ℕ) (suffix : String) : List ℚ → List String × Bool
  | [] => ([], false)
  | e :: es =>
    let t := tickOpt target suffix e
    if t.2 then
      let r := runTicksOpt target suffix es
      (t.1 :: r.1, r.2)
    else
      ([t.1], true)

/-! ## The demo early-access form (`script.js`)

On submit the handler prevents the default action, reads the five inputs,
computes

```
const isMissing = !name?.value.trim() || !email?.value.trim() ||
  !country?.value.trim() || !role?.value.trim() || !language?.value.trim();
```

and either writes the validation message and returns, or writes the
success message and calls `form.reset()` (all five inputs have empty
default values, so reset clears them).  No network request is made
anywhere in the handler, which is why the embedding is a pure state
transformer. -/

/-- JavaScript `String.prototype.trim`: drop leading and trailing
whitespace. -/
def jsTrim (s : String) : String :=
  String.mk ((((s.toList).dropWhile Char.isWhitespace).reverse.dropWhile
    Char.isWhitespace).reverse)

/-- The five required fields of the early-access form. -/
structure EAForm where
  name : String
  email : String
  country : String
  role : String
  language : String
deriving DecidableEq, Repr

/-- Form plus the `#early-access-status` element's text. -/
structure EAState where
  form : EAForm
  status : String
deriving DecidableEq, Repr

/-- The validation message. -/
def fillMsg : String := "Please fill out all fields."

/-- The success message. -/
def successMsg : String := "Thanks — you’re on the early access list (demo only)."

/-- `isMissing`: some required field is empty after trimming
(a trimmed JS string is falsy exactly when it is empty). -/
def isMissing (f : EAForm) : Bool :=
  jsTrim f.name == "" || jsTrim f.email == "" || jsTrim f.country == "" ||
    jsTrim f.role == "" || jsTrim f.language == ""

/-- `form.reset()`: every input returns to its (empty) default value. -/
def resetForm : EAForm := ⟨"", "", "", "", ""⟩

/-- The submit handler as a state transformer. -/
def submitEarlyAccess (s : EAState) : EAState :=
  if isMissing s.form then
    { s with status := fillMsg }
  else
    { form := resetForm, status := successMsg }

/-! ## Navigation highlighting (`script.js`) -/

/-- JavaScript `String.prototype.split` with a one-character separator,
on the character list: splitting the empty string gives `[""]`, and
adjacent separators give empty segments, exactly as in JS. -/
def splitChar (sep : Char) : List Char → List (List Char)
  | [] => [[]]
  | c :: cs =>
    match splitChar sep cs with
    | [] => [[]]
    | g :: gs => if c = sep then [] :: g :: gs else (c :: g) :: gs

/-- `String(path).split('/')`. -/
def jsSplitSlash (s : String) : List String :=
  (splitChar (Char.ofNat 47) s.toList).map String.mk

/-- `basename`: last non-empty `/`-separated segment of a path, defaulting
to `index.html`.  Mirrors

```
const parts = String(path).split('/').filter(Boolean);
return parts.length ? parts[parts.length - 1] : 'index.html';
``` -/
def basename (path : String) : String :=
  let parts := (jsSplitSlash path).filter (fun s => s ≠ "")
  match parts.getLast? with
  | some s => s
  | none => "index.html"

/-- `toLinkBasename`: resolve the href against the page URL and take the
basename of the resulting pathname; on a URL-constructor exception fall
back to the basename of the raw href.  The browser built-in
`new URL(href, location.href).pathname` is abstracted as `resolvePath`
(`none` models the thrown exception caught by the `try`/`catch`). -/
def toLinkBasename (resolvePath : String → Option String) (href : String) : String :=
  match resolvePath href with
  | some p => basename p
  | none => basename href

/-- A navigation link: its `href` attribute, whether its class list holds
`is-active`, and its `aria-current` attribute. -/
structure NavLink where
  href : String
  hasActiveClass : Bool
  ariaCurrent : Option String
deriving DecidableEq, Repr, Inhabited

/-- `setActiveNav`: toggle `is-active` on each link according to whether
its resolved basename equals the basename of `location.pathname`, and set
or remove `aria-current="page"` accordingly. -/
def setActiveNav (resolvePath : String → Option String) (locationPath : String)
    (links : List NavLink) : List NavLink :=
  let current := basename locationPath
  links.map (fun link =>
    let linkBase := toLinkBasename resolvePath link.href
    let isActive := linkBase == current
    { link with
      hasActiveClass := isActive
      ariaCurrent := if isActive then some "page" else none })

/-! ## Particle constellation update (`innovation.js`, section 1)

The per-frame `update` mutates each particle's velocity (mouse repulsion,
damping, speed limit) and position, bounces the velocity at the walls and
clamps the position into `[0, w] × [0, h]`.  `Math.sqrt` is not rational,
so the embedding takes the square-root function as a parameter `sqrtFn`:
every theorem below holds for an arbitrary `sqrtFn`, hence in particular
for the real square root the browser computes.  Render-only particle
fields (`r`, `alpha`, `pulseOffset`, `hueShift`) are untouched by `update`
and omitted from the state. -/

/-- Kinematic state of one particle. -/
structure Particle where
  x : ℚ
  y : ℚ
  vx : ℚ
  vy : ℚ
deriving DecidableEq, Repr, Inhabited

/-- One `update` step for one particle, from `innovation.js`:
mouse repulsion (when the mouse is inside the panel, `mouseX > 0`),
damping by `0.998`, speed limit `1.5`, position integration, wall bounce,
and the final clamp `p.x = Math.max(0, Math.min(w, p.x))` (resp. `y`). -/
def updateParticle (sqrtFn : ℚ → ℚ) (w h mouseX mouseY : ℚ) (p : Particle) :
    Particle :=
  let p :=
    if mouseX > 0 then
      let dx := p.x - mouseX
      let dy := p.y - mouseY
      let dist := sqrtFn (dx * dx + dy * dy)
      if dist < 120 ∧ dist > 0 then
        let force := (120 - dist) / 120 * (0.8 : ℚ)
        { p with
          vx := p.vx + dx / dist * force * (0.05 : ℚ)
          vy := p.vy + dy / dist * force * (0.05 : ℚ) }
      else p
    else p
  let p := { p with vx := p.vx * (0.998 : ℚ), vy := p.vy * (0.998 : ℚ) }
  let speed := sqrtFn (p.vx * p.vx + p.vy * p.vy)
  let p :=
    if speed > 1.5 then
      { p with vx := p.vx / speed * (1.5 : ℚ), vy := p.vy / speed * (1.5 : ℚ) }
    else p
  let p := { p with x := p.x + p.vx, y := p.y + p.vy }
  let p :=
    { p with
      vx := if p.x < 0 ∨ p.x > w then -p.vx else p.vx
      vy := if p.y < 0 ∨ p.y > h then -p.vy else p.vy }
  { p with x := max 0 (min w p.x), y := max 0 (min h p.y) }

/-- The whole `update`: every particle is stepped. -/
def updateParticles (sqrtFn : ℚ → ℚ) (w h mouseX mouseY : ℚ)
    (ps : List Particle) : List Particle :=
  ps.map (updateParticle sqrtFn w h mouseX mouseY)

/-! ## Filmstrip auto-scroll (`innovation.js`, section 7)

Per strip the script keeps `scrollAmount` (starting at 0), `speed = 0.5`
and a `paused` flag, and on every animation frame runs

```
if (!paused && strip.scrollWidth > strip.clientWidth) {
    scrollAmount += speed;
    if (scrollAmount >= strip.scrollWidth - strip.clientWidth) {
        scrollAmount = 0;
    }
    strip.scrollLeft = scrollAmount;
}
```

(The optimized script's `tick` has the same body, additionally gated on
an `IntersectionObserver` visibility flag.) -/

/-- The state the auto-scroll loop drives: its accumulator and the strip's
`scrollLeft`. -/
structure FilmstripState where
  scrollAmount : ℚ
  scrollLeft : ℚ
deriving DecidableEq, Repr

/-- One animation-frame step of `autoScroll`. -/
def autoScrollStep (scrollWidth clientWidth : ℚ) (paused : Bool)
    (s : FilmstripState) : FilmstripState :=
  if paused = false ∧ clientWidth < scrollWidth then
    let a := s.scrollAmount + (0.5 : ℚ)
    let a := if a ≥ scrollWidth - clientWidth then 0 else a
    { scrollAmount := a, scrollLeft := a }
  else s

/-! ## Cinematic loading screen (`innovation.js`, section -1)

```
const loaderEl = document.getElementById('cinema-loader');
const countdownEl = document.getElementById('loader-countdown');
const barFill = document.getElementById('loader-bar-fill');

if (loaderEl && !prefersReducedMotion) {
    const nums = ['5', '4', '3', '2', '1'];
    let step = 0;
    const interval = setInterval(() => {
        step++;
        if (step < nums.length) {
            countdownEl.textContent = nums[step];
            barFill.style.width = ((step + 1) / nums.length * 100) + '%';
        }
        if (step >= nums.length) { ... loaderEl.classList.add('loaded'); ... }
    }, 350);
    barFill.style.width = '20%';
} else if (loaderEl) { loaderEl.remove(); }
```

In the original, `countdownEl` and `barFill` are dereferenced without a
null check (only `loaderEl` is checked); the optimized script wraps each
access in `if (countdownEl)` / `if (barFill)`.  Presence of each element
is a `Bool`; dereferencing an absent element is `Except.error` (the
`TypeError` the browser would throw).  The embedding runs the
synchronous tail of the `if` branch followed by the five interval
firings (`step = 1..5`). -/

/-- `nums` of the loader countdown. -/
def loaderNums : List String := ["5", "4", "3", "2", "1"]

/-- Observable state of the loading screen. -/
structure LoaderState where
  countdownText : String
  barWidthPct : ℚ
  loadedClass : Bool
  removed : Bool
deriving DecidableEq, Repr

/-- One interval firing of the original loader, at incremented `step`
(`1 ≤ step ≤ 5`); absent `countdownEl` or `barFill` throws. -/
def loaderTickOrig (countdown barFill : Bool) (step : ℕ) (st : LoaderState) :
    Except String LoaderState :=
  if step < 5 then
    if countdown then
      if barFill then
        Except.ok { st with
          countdownText := loaderNums.getD step ""
          barWidthPct := ((step : ℚ) + 1) / 5 * 100 }
      else Except.error "TypeError: barFill is null"
    else Except.error "TypeError: countdownEl is null"
  else
    Except.ok { st with loadedClass := true, removed := true }

/-- One interval firing of the optimized loader: each child access is
guarded, so an absent child is skipped. -/
def loaderTickOpt (countdown barFill : Bool) (step : ℕ) (st : LoaderState) :
    Except String LoaderState :=
  if step < 5 then
    let st := if countdown then
      { st with countdownText := loaderNums.getD step "" } else st
    let st := if barFill then
      { st with barWidthPct := ((step : ℚ) + 1) / 5 * 100 } else st
    Except.ok st
  else
    Except.ok { st with loadedClass := true, removed := true }

/-- Initialize and run the original loader effect to completion:
the guard `loaderEl && !prefersReducedMotion`, the synchronous
`barFill.style.width = '20%'` (unguarded dereference), then the five
interval firings. -/
def runLoaderOrig (loader countdown barFill reduced : Bool) (st : LoaderState) :
    Except String LoaderState :=
  if loader && !reduced then do
    let st1 ← if barFill then Except.ok { st with barWidthPct := 20 }
              else Except.error "TypeError: barFill is null"
    let st2 ← loaderTickOrig countdown barFill 1 st1
    let st3 ← loaderTickOrig countdown barFill 2 st2
    let st4 ← loaderTickOrig countdown barFill 3 st3
    let st5 ← loaderTickOrig countdown barFill 4 st4
    loaderTickOrig countdown barFill 5 st5
  else if loader then Except.ok { st with removed := true }
  else Except.ok st

/-- Initialize and run the optimized loader effect to completion: same
control flow, but `if (barFill) barFill.style.width = '20%'` and guarded
ticks. -/
def runLoaderOpt (loader countdown barFill reduced : Bool) (st : LoaderState) :
    Except String LoaderState :=
  if loader && !reduced then do
    let st1 := if barFill then { st with barWidthPct := 20 } else st
    let st2 ← loaderTickOpt countdown barFill 1 st1
    let st3 ← loaderTickOpt countdown barFill 2 st2
    let st4 ← loaderTickOpt countdown barFill 3 st3
    let st5 ← loaderTickOpt countdown barFill 4 st4
    loaderTickOpt countdown barFill 5 st5
  else if loader then Except.ok { st with removed := true }
  else Except.ok st

/-! ## Per-effect feature guards (`innovation.js` top-level conditions)

Each definition is the condition of the `if` statement that encloses the
corresponding effect's initialization (listener registration / animation
loop start); `reduced` is `prefersReducedMotion`.  Section 7 (filmstrip
auto-scroll) has no enclosing `if` in either script, so its condition is
constantly `true`. -/

/-- Section -1 guard: `loaderEl && !prefersReducedMotion`. -/
def runsCinemaLoader (loaderPresent reduced : Bool) : Bool :=
  loaderPresent && !reduced

/-- Section 0 guard: `!prefersReducedMotion`. -/
def runsScrollProgress (reduced : Bool) : Bool := !reduced

/-- Section 0b guard: `!prefersReducedMotion && window.innerWidth > 768`. -/
def runsCursor (reduced : Bool) (innerWidth : ℚ) : Bool :=
  !reduced && decide (innerWidth > 768)

/-- Section 1 guard: `canvas && !prefersReducedMotion`. -/
def runsParticles (canvasPresent reduced : Bool) : Bool :=
  canvasPresent && !reduced

/-- Section 2: the typing loop starts only on the `!prefersReducedMotion`
branch (reduced motion sets the final text at once). -/
def runsTypewriterAnim (twPresent reduced : Bool) : Bool :=
  twPresent && !reduced

/-- Section 3 guard: `!prefersReducedMotion`. -/
def runsScrollReveal (reduced : Bool) : Bool := !reduced

/-- Section 4 guard: `statEls.length && !prefersReducedMotion` (the else
branch writes the final values without animating). -/
def runsStatCounterAnim (anyStats reduced : Bool) : Bool :=
  anyStats && !reduced

/-- Section 5 guard: `!prefersReducedMotion`. -/
def runsCardTilt (reduced : Bool) : Bool := !reduced

/-- Section 6 guard: `!prefersReducedMotion`. -/
def runsParallaxScenes (reduced : Bool) : Bool := !reduced

/-- Section 7 (`innovation.js`): `filmstrips.forEach(...)` with listener
registration and `autoScroll()` is at the top level of the IIFE — there is
no reduced-motion or mobile guard around it. -/
def runsFilmstripAutoScroll (_reduced : Bool) : Bool := true

/-- Section 7 of the optimized script: also top level, guarded neither by
`prefersReducedMotion` nor by `isMobile`. -/
def runsFilmstripAutoScrollOpt (_reduced _mobile : Bool) : Bool := true

/-- Section 8 guard: `!prefersReducedMotion`. -/
def runsMagneticButtons (reduced : Bool) : Bool := !reduced

/-- Section 9 guard: `!prefersReducedMotion`. -/
def runsTextReveal (reduced : Bool) : Bool := !reduced

/-- Section 10 guard: `!prefersReducedMotion`. -/
def runsSprocket (reduced : Bool) : Bool := !reduced

/-- Section 11 guard: `!prefersReducedMotion`. -/
def runsPageLoadFade (reduced : Bool) : Bool := !reduced

/-- Section 12 guard: `!prefersReducedMotion`. -/
def runsSpotlight (reduced : Bool) : Bool := !reduced

/-- Section 13 guard: `!prefersReducedMotion`. -/
def runsPageTransitions (reduced : Bool) : Bool := !reduced

/-- Section 14 guard: `!prefersReducedMotion`. -/
def runsParallaxBlobs (reduced : Bool) : Bool := !reduced

/-- Section 15: per element, reduced motion writes the final value and
returns before any observer/animation is registered. -/
def runsHighlightNumberAnim (reduced : Bool) : Bool := !reduced

/-! ## Helper lemmas -/

lemma progressAt_nonneg {e : ℚ} (h : 0 ≤ e) : 0 ≤ progressAt e :=
  le_min (by positivity) zero_le_one

lemma progressAt_le_one (e : ℚ) : progressAt e ≤ 1 := min_le_right _ _

lemma progressAt_mono {e e' : ℚ} (h : e ≤ e') : progressAt e ≤ progressAt e' :=
  min_le_min (by apply div_le_div_of_nonneg_right h; norm_num) le_rfl

lemma jsRound_mono {a b : ℚ} (h : a ≤ b) : jsRound a ≤ jsRound b :=
  Int.floor_le_floor (by linarith)

lemma easedAt_mono {e e' : ℚ} (h : e ≤ e') : easedAt e ≤ easedAt e' := by
  unfold easedAt
  have hp : progressAt e ≤ progressAt e' := progressAt_mono h
  have h1 : progressAt e' ≤ 1 := progressAt_le_one e'
  have hcube : (1 - progressAt e') ^ 3 ≤ (1 - progressAt e) ^ 3 :=
    pow_le_pow_left₀ (by linarith) (by linarith) 3
  linarith

lemma animateCountValue_mono (t : ℕ) {e e' : ℚ} (h : e ≤ e') :
    animateCountValue t e ≤ animateCountValue t e' := by
  unfold animateCountValue
  exact jsRound_mono
    (mul_le_mul_of_nonneg_right (easedAt_mono h) (by positivity))

lemma animateCountValue_zero (t : ℕ) : animateCountValue t 0 = 0 := by
  have hp : progressAt 0 = 0 := by
    unfold progressAt
    norm_num
  unfold animateCountValue easedAt jsRound
  rw [hp]
  norm_num

lemma progressAt_done {e : ℚ} (h : 1600 ≤ e) : progressAt e = 1 := by
  unfold progressAt
  exact min_eq_right ((one_le_div (by norm_num)).mpr h)

lemma animateCountValue_done (t : ℕ) {e : ℚ} (h : 1600 ≤ e) :
    animateCountValue t e = t := by
  unfold animateCountValue easedAt jsRound
  rw [progressAt_done h]
  rw [show ((1 : ℚ) - (1 - 1) ^ 3) * t + 1/2 = ((t : ℤ) : ℚ) + 1/2 by
    push_cast; ring]
  rw [Int.floor_int_add]
  norm_num

/-- C1: For every stat counter with a non-negative integer `data-count`
target, the value `animateCount`'s tick displays is monotonically
non-decreasing in the elapsed time, is 0 at the start, and once the
elapsed time reaches the 1600 ms duration the displayed value is exactly
the target and the tick requests no further animation frame. -/
theorem animateCount_monotone_zero_to_target (t : ℕ) (e e' f : ℚ)
    (_he : 0 ≤ e) (hee : e ≤ e') (hf : 1600 ≤ f) :
    animateCountValue t e ≤ animateCountValue t e' ∧
    animateCountValue t 0 = 0 ∧
    animateCountValue t f = t ∧
    animateCountSchedulesNext f = false := by
  refine ⟨animateCountValue_mono t hee, animateCountValue_zero t,
    animateCountValue_done t hf, ?_⟩
  unfold animateCountSchedulesNext
  rw [progressAt_done hf]
  simp

/-- Witness for C1 at target 100 and concrete elapsed times 400 ≤ 800,
final stamp 1600. -/
theorem animateCount_monotone_zero_to_target_witness :
    animateCountValue 100 400 ≤ animateCountValue 100 800 ∧
    animateCountValue 100 0 = 0 ∧
    animateCountValue 100 1600 = 100 ∧
    animateCountSchedulesNext 1600 = false :=
  animateCount_monotone_zero_to_target 100 400 800 1600 (by norm_num)
    (by norm_num) (by norm_num)

lemma submit_of_missing (s : EAState) (h : isMissing s.form = true) :
    (submitEarlyAccess s).status = fillMsg ∧
    (submitEarlyAccess s).form = s.form := by
  unfold submitEarlyAccess
  rw [if_pos h]
  exact ⟨rfl, rfl⟩

lemma isMissing_of_trim_empty (f : EAForm)
    (h : jsTrim f.name = "" ∨ jsTrim f.email = "" ∨ jsTrim f.country = "" ∨
      jsTrim f.role = "" ∨ jsTrim f.language = "") :
    isMissing f = true := by
  unfold isMissing
  simp only [Bool.or_eq_true, beq_iff_eq]
  tauto

/-- C2: Submitting the demo early-access form with at least one of the
five required fields empty after trimming sets the status text to
`Please fill out all fields.` and leaves every field with the value it
had before submission (the form is not reset). -/
theorem earlyAccess_missing_field_shows_validation (s : EAState)
    (h : jsTrim s.form.name = "" ∨ jsTrim s.form.email = "" ∨
      jsTrim s.form.country = "" ∨ jsTrim s.form.role = "" ∨
      jsTrim s.form.language = "") :
    (submitEarlyAccess s).status = fillMsg ∧
    (submitEarlyAccess s).form = s.form :=
  submit_of_missing s (isMissing_of_trim_empty s.form h)

/-- Witness for C2: the country field is blank, the others populated. -/
theorem earlyAccess_missing_field_shows_validation_witness :
    (submitEarlyAccess ⟨⟨"Ada", "ada@example.com", "", "Director", "en"⟩, ""⟩).status
        = fillMsg ∧
    (submitEarlyAccess ⟨⟨"Ada", "ada@example.com", "", "Director", "en"⟩, ""⟩).form
        = ⟨"Ada", "ada@example.com", "", "Director", "en"⟩ :=
  earlyAccess_missing_field_shows_validation
    ⟨⟨"Ada", "ada@example.com", "", "Director", "en"⟩, ""⟩
    (by decide)

/-- C3: Submitting the demo form with all five required fields non-empty
after trimming sets the status text to the success message and resets the
form, clearing all five fields.  The handler is embedded as a pure state
transformer (`submitEarlyAccess`) because it performs no network request:
its only effects are the status text and the reset. -/
theorem earlyAccess_complete_shows_success (s : EAState)
    (h1 : jsTrim s.form.name ≠ "") (h2 : jsTrim s.form.email ≠ "")
    (h3 : jsTrim s.form.country ≠ "") (h4 : jsTrim s.form.role ≠ "")
    (h5 : jsTrim s.form.language ≠ "") :
    (submitEarlyAccess s).status = successMsg ∧
    (submitEarlyAccess s).form.name = "" ∧
    (submitEarlyAccess s).form.email = "" ∧
    (submitEarlyAccess s).form.country = "" ∧
    (submitEarlyAccess s).form.role = "" ∧
    (submitEarlyAccess s).form.language = "" := by
  have hm : isMissing s.form = false := by
    unfold isMissing
    simp only [Bool.or_eq_false_iff, beq_eq_false_iff_ne, ne_eq]
    exact ⟨⟨⟨⟨h1, h2⟩, h3⟩, h4⟩, h5⟩
  unfold submitEarlyAccess
  rw [hm]
  exact ⟨rfl, rfl, rfl, rfl, rfl, rfl⟩

/-- Witness for C3: all five fields populated. -/
theorem earlyAccess_complete_shows_success_witness :
    (submitEarlyAccess ⟨⟨"Ada", "ada@example.com", "IN", "Director", "en"⟩, ""⟩).status
        = successMsg ∧
    (submitEarlyAccess ⟨⟨"Ada", "ada@example.com", "IN", "Director", "en"⟩, ""⟩).form.name
        = "" ∧
    (submitEarlyAccess ⟨⟨"Ada", "ada@example.com", "IN", "Director", "en"⟩, ""⟩).form.email
        = "" ∧
    (submitEarlyAccess ⟨⟨"Ada", "ada@example.com", "IN", "Director", "en"⟩, ""⟩).form.country
        = "" ∧
    (submitEarlyAccess ⟨⟨"Ada", "ada@example.com", "IN", "Director", "en"⟩, ""⟩).form.role
        = "" ∧
    (submitEarlyAccess ⟨⟨"Ada", "ada@example.com", "IN", "Director", "en"⟩, ""⟩).form.language
        = "" :=
  earlyAccess_complete_shows_success
    ⟨⟨"Ada", "ada@example.com", "IN", "Director", "en"⟩, ""⟩
    (by decide) (by decide) (by decide) (by decide) (by decide)

lemma jsTrim_of_all_whitespace {s : String}
    (h : s.toList.all Char.isWhitespace = true) : jsTrim s = "" := by
  unfold jsTrim
  have h1 : s.toList.dropWhile Char.isWhitespace = [] :=
    List.dropWhile_eq_nil_iff.mpr (fun x hx => List.all_eq_true.mp h x hx)
  rw [h1]
  rfl

/-- C9: A required field whose value consists only of whitespace is
treated as empty: the validation path is taken (status becomes the
validation message, the form keeps its values), never the success path. -/
theorem earlyAccess_whitespace_only_field_fails (s : EAState)
    (h : s.form.name.toList.all Char.isWhitespace = true ∨
      s.form.email.toList.all Char.isWhitespace = true ∨
      s.form.country.toList.all Char.isWhitespace = true ∨
      s.form.role.toList.all Char.isWhitespace = true ∨
      s.form.language.toList.all Char.isWhitespace = true) :
    (submitEarlyAccess s).status = fillMsg ∧
    (submitEarlyAccess s).form = s.form ∧
    (submitEarlyAccess s).status ≠ successMsg := by
  have hmiss : isMissing s.form = true := by
    apply isMissing_of_trim_empty
    rcases h with h | h | h | h | h
    · exact Or.inl (jsTrim_of_all_whitespace h)
    · exact Or.inr (Or.inl (jsTrim_of_all_whitespace h))
    · exact Or.inr (Or.inr (Or.inl (jsTrim_of_all_whitespace h)))
    · exact Or.inr (Or.inr (Or.inr (Or.inl (jsTrim_of_all_whitespace h))))
    · exact Or.inr (Or.inr (Or.inr (Or.inr (jsTrim_of_all_whitespace h))))
  obtain ⟨h1, h2⟩ := submit_of_missing s hmiss
  refine ⟨h1, h2, ?_⟩
  rw [h1]
  decide

/-- Witness for C9: the name field is three spaces. -/
theorem earlyAccess_whitespace_only_field_fails_witness :
    (submitEarlyAccess ⟨⟨"   ", "ada@example.com", "IN", "Director", "en"⟩, ""⟩).status
        = fillMsg ∧
    (submitEarlyAccess ⟨⟨"   ", "ada@example.com", "IN", "Director", "en"⟩, ""⟩).form
        = ⟨"   ", "ada@example.com", "IN", "Director", "en"⟩ ∧
    (submitEarlyAccess ⟨⟨"   ", "ada@example.com", "IN", "Director", "en"⟩, ""⟩).status
        ≠ successMsg :=
  earlyAccess_whitespace_only_field_fails
    ⟨⟨"   ", "ada@example.com", "IN", "Director", "en"⟩, ""⟩
    (Or.inl (by decide))

/-- C5: After `setActiveNav`, a navigation link carries the `is-active`
class if and only if the basename its href resolves to equals the
basename of the current page's location path, its `aria-current`
attribute is `page` exactly in that case, and on every non-matching link
both the class and the attribute are absent. -/
theorem setActiveNav_marks_matching_link (resolvePath : String → Option String)
    (locationPath : String) (links : List NavLink) (l : NavLink)
    (hl : l ∈ setActiveNav resolvePath locationPath links) :
    (l.hasActiveClass = true ↔
      toLinkBasename resolvePath l.href = basename locationPath) ∧
    (l.ariaCurrent = some "page" ↔
      toLinkBasename resolvePath l.href = basename locationPath) ∧
    (toLinkBasename resolvePath l.href ≠ basename locationPath →
      l.hasActiveClass = false ∧ l.ariaCurrent = none) := by
  unfold setActiveNav at hl
  rw [List.mem_map] at hl
  obtain ⟨a, _, rfl⟩ := hl
  by_cases hb : toLinkBasename resolvePath a.href = basename locationPath
  · simp [hb]
  · simp [hb]

/-- Witness for C5: current page `/site/platform.html`, two links; the
platform link (matching) ends up active with `aria-current="page"`
(resolution abstracted as the identity on already-absolute pathnames). -/
theorem setActiveNav_marks_matching_link_witness :
    ((⟨"/site/platform.html", true, some "page"⟩ : NavLink).hasActiveClass = true ↔
      toLinkBasename (fun h => some h) "/site/platform.html"
        = basename "/site/platform.html") ∧
    ((⟨"/site/platform.html", true, some "page"⟩ : NavLink).ariaCurrent = some "page" ↔
      toLinkBasename (fun h => some h) "/site/platform.html"
        = basename "/site/platform.html") ∧
    (toLinkBasename (fun h => some h) "/site/platform.html"
        ≠ basename "/site/platform.html" →
      (⟨"/site/platform.html", true, some "page"⟩ : NavLink).hasActiveClass = false ∧
      (⟨"/site/platform.html", true, some "page"⟩ : NavLink).ariaCurrent = none) :=
  setActiveNav_marks_matching_link (fun h => some h) "/site/platform.html"
    [⟨"/site/platform.html", false, none⟩, ⟨"/site/index.html", true, some "page"⟩]
    ⟨"/site/platform.html", true, some "page"⟩
    (by decide)

/-- C6: the particle `update` step keeps every particle inside the canvas:
whatever the square-root primitive, the mouse position and the incoming
particle state, after the step `0 ≤ x ≤ w` and `0 ≤ y ≤ h` (the canvas
dimensions being non-negative). -/
theorem updateParticles_within_bounds (sqrtFn : ℚ → ℚ) (w h mouseX mouseY : ℚ)
    (ps : List Particle) (hw : 0 ≤ w) (hh : 0 ≤ h) :
    ∀ q ∈ updateParticles sqrtFn w h mouseX mouseY ps,
      0 ≤ q.x ∧ q.x ≤ w ∧ 0 ≤ q.y ∧ q.y ≤ h := by
  intro q hq
  unfold updateParticles at hq
  rw [List.mem_map] at hq
  obtain ⟨p, _, rfl⟩ := hq
  unfold updateParticle
  refine ⟨le_max_left _ _, max_le hw (min_le_left _ _),
    le_max_left _ _, max_le hh (min_le_left _ _)⟩

/-- Witness for C6: a 300 × 200 canvas, the identity as an (admissible)
square-root parameter, one particle heading out of bounds. -/
theorem updateParticles_within_bounds_witness :
    0 ≤ (updateParticle (fun q => q) 300 200 (-999) (-999) ⟨299, 199, 7, 7⟩).x ∧
    (updateParticle (fun q => q) 300 200 (-999) (-999) ⟨299, 199, 7, 7⟩).x ≤ 300 ∧
    0 ≤ (updateParticle (fun q => q) 300 200 (-999) (-999) ⟨299, 199, 7, 7⟩).y ∧
    (updateParticle (fun q => q) 300 200 (-999) (-999) ⟨299, 199, 7, 7⟩).y ≤ 200 :=
  updateParticles_within_bounds (fun q => q) 300 200 (-999) (-999)
    [⟨299, 199, 7, 7⟩] (by norm_num) (by norm_num)
    (updateParticle (fun q => q) 300 200 (-999) (-999) ⟨299, 199, 7, 7⟩)
    (by simp [updateParticles])

/-- C4: one step of the filmstrip auto-scroll loop, on an overflowing,
unpaused strip: the accumulated offset grows by the fixed speed `0.5`,
except that on the step where it would reach
`scrollWidth - clientWidth` it is reset to 0; `scrollLeft` is set to the
resulting offset, so the scroll offset returns to 0 exactly when the
maximum scroll width is reached. -/
theorem autoScroll_resets_at_max (scrollWidth clientWidth : ℚ)
    (s : FilmstripState) (hover : clientWidth < scrollWidth) :
    (scrollWidth - clientWidth ≤ s.scrollAmount + 0.5 →
      autoScrollStep scrollWidth clientWidth false s = ⟨0, 0⟩) ∧
    (s.scrollAmount + 0.5 < scrollWidth - clientWidth →
      (autoScrollStep scrollWidth clientWidth false s).scrollAmount
          = s.scrollAmount + 0.5 ∧
      (autoScrollStep scrollWidth clientWidth false s).scrollLeft
          = s.scrollAmount + 0.5) := by
  constructor
  · intro hge
    simp [autoScrollStep, hover, hge]
  · intro hlt
    simp [autoScrollStep, hover, not_le.mpr hlt]

/-- Witness for C4: `scrollWidth = 10`, `clientWidth = 4`, so the reset
threshold is 6; from offset `5.5` the step resets both the accumulator
and `scrollLeft` to 0. -/
theorem autoScroll_resets_at_max_witness :
    ((10 : ℚ) - 4 ≤ (5.5 : ℚ) + 0.5 →
      autoScrollStep 10 4 false ⟨5.5, 5.5⟩ = ⟨0, 0⟩) ∧
    ((5.5 : ℚ) + 0.5 < (10 : ℚ) - 4 →
      (autoScrollStep 10 4 false ⟨5.5, 5.5⟩).scrollAmount = (5.5 : ℚ) + 0.5 ∧
      (autoScrollStep 10 4 false ⟨5.5, 5.5⟩).scrollLeft = (5.5 : ℚ) + 0.5) :=
  autoScroll_resets_at_max 10 4 ⟨5.5, 5.5⟩ (by norm_num)

/-- C7 counterexample: in `innovation.js`, with the loader element present,
reduced motion off, the countdown present but the bar-fill element absent,
initializing the cinematic loading screen throws a `TypeError`
(`barFill.style.width = '20%'` dereferences `null`) — the claim that this
never throws is false on that input. -/
theorem loaderOrig_throws_without_barFill :
    runLoaderOrig true true false false ⟨"5", 0, false, false⟩
      = Except.error "TypeError: barFill is null" := by
  rfl

/-- C7 amended: effects are skipped when their checked element is absent,
and in the performance-optimized script the loader never throws whatever
children are absent; but in `innovation.js` the loader init completes
without throwing only when the loader is absent, reduced motion is on, or
both the countdown and the bar-fill elements are present. -/
theorem loader_missing_children_noop (loader countdown barFill reduced : Bool)
    (st : LoaderState) :
    (∃ st', runLoaderOpt loader countdown barFill reduced st = Except.ok st') ∧
    ((∃ st', runLoaderOrig loader countdown barFill reduced st = Except.ok st') ↔
      (loader = false ∨ reduced = true ∨ (countdown = true ∧ barFill = true))) := by
  cases loader <;> cases countdown <;> cases barFill <;> cases reduced <;>
    simp [runLoaderOpt, runLoaderOrig, loaderTickOpt, loaderTickOrig,
      loaderNums, Except.instMonad, Bind.bind, Except.bind]

/-- C8 counterexample: the filmstrip auto-scroll effect starts its
listeners and animation loop even when the user prefers reduced motion —
in `innovation.js` and in the optimized script alike (there, also on a
mobile viewport) — so not every effect is guarded. -/
theorem filmstrip_runs_despite_reduced_motion :
    runsFilmstripAutoScroll true = true ∧
    runsFilmstripAutoScrollOpt true true = true := by
  exact ⟨rfl, rfl⟩

/-- C8 amended: every effect of `innovation.js` except the filmstrip
auto-scroll is guarded so that it does not start when reduced motion is
preferred (the cursor additionally requires a viewport wider than 768px),
while the filmstrip auto-scroll starts unconditionally, in both scripts. -/
theorem effects_guarded_except_filmstrip (innerWidth : ℚ)
    (loaderPresent canvasPresent twPresent anyStats reduced mobile : Bool) :
    runsCinemaLoader loaderPresent true = false ∧
    runsScrollProgress true = false ∧
    runsCursor true innerWidth = false ∧
    runsParticles canvasPresent true = false ∧
    runsTypewriterAnim twPresent true = false ∧
    runsScrollReveal true = false ∧
    runsStatCounterAnim anyStats true = false ∧
    runsCardTilt true = false ∧
    runsParallaxScenes true = false ∧
    runsMagneticButtons true = false ∧
    runsTextReveal true = false ∧
    runsSprocket true = false ∧
    runsPageLoadFade true = false ∧
    runsSpotlight true = false ∧
    runsPageTransitions true = false ∧
    runsParallaxBlobs true = false ∧
    runsHighlightNumberAnim true = false ∧
    runsFilmstripAutoScroll reduced = true ∧
    runsFilmstripAutoScrollOpt reduced mobile = true := by
  refine ⟨?_, rfl, rfl, ?_, ?_, rfl, ?_, rfl, rfl, rfl, rfl, rfl, rfl, rfl,
    rfl, rfl, rfl, rfl, rfl⟩ <;>
    simp [runsCinemaLoader, runsParticles, runsTypewriterAnim,
      runsStatCounterAnim]

/-- C10: the optimized stat-counter animation is functionally equivalent
to the original: for the same `data-count` target and `data-suffix`, and
the same sequence of frame timestamps, the optimized `animateCount`
produces exactly the same sequence of displayed texts and the same
terminal `counted` marker as the original. -/
theorem animateCount_opt_equiv_orig (target : ℕ) (suffix : String)
    (elapsedTimes : List ℚ) :
    runTicksOpt target suffix elapsedTimes
      = runTicksOrig target suffix elapsedTimes := by
  induction elapsedTimes with
  | nil => rfl
  | cons e es ih =>
    unfold runTicksOpt runTicksOrig
    rw [ih]
    rfl
